import Mathlib

/-!
Verification development for the `curl_clone` repository (Python package
`curlclone`: `http_client.py`, `cookies.py`, `cli.py`).

Modelling conventions (shallow embedding of the Python source):
* Python `dict[str, str]` values (header maps, the cookie jar levels) are
  insertion-ordered association lists; assignment `d[k] = v` is `dictInsert`
  (update in place when the key exists, append otherwise) and `d.get(k)` is
  `dictGet`, matching CPython dict semantics.
* Python string primitives (`split`, `strip`, `lower`, `startswith`, …) are
  embedded as structurally recursive functions on `List Char` (named `py…`),
  so that every definition evaluates inside the kernel.
* Response body bytes are modelled as `String` (standing for their UTF-8
  content) or as a type parameter where the code only passes them through.
* Calls into the Python standard library that are external to the repository
  (`urllib.parse.urljoin`, the three `zlib.decompress` call forms, the network
  socket) are function parameters of the embedded definitions; the parts of
  `urllib.parse.urlparse` that `parse_url` observes are embedded explicitly.
* Code that can raise returns `Option`/`Except`; `none`/`Except.error` is the
  raised exception.
-/

namespace CurlClone

/-! ### Python string primitives -/

/-- Python `s.split(sep)` for a one-character separator, on character
lists: every occurrence of `sep` ends a piece; `n` separators give `n + 1`
pieces. -/
def splitChar (sep : Char) : List Char → List (List Char)
  | [] => [[]]
  | c :: rest =>
      if c = sep then [] :: splitChar sep rest
      else
        match splitChar sep rest with
        | [] => [[c]]
        | g :: gs => (c :: g) :: gs

/-- Python `s.split(sep)` for a one-character separator, on strings. -/
def pySplitChar (s : String) (sep : Char) : List String :=
  (splitChar sep s.toList).map String.mk

/-- Python `s.split("\r\n")` on character lists. -/
def splitCRLFAux : List Char → List (List Char)
  | [] => [[]]
  | '\r' :: '\n' :: rest => [] :: splitCRLFAux rest
  | c :: rest =>
      match splitCRLFAux rest with
      | [] => [[c]]
      | g :: gs => (c :: g) :: gs

/-- Python `s.split("\r\n")` on strings. -/
def pySplitCRLF (s : String) : List String :=
  (splitCRLFAux s.toList).map String.mk

/-- Python `s.split()` (no separator): split on runs of whitespace, dropping
empty pieces. -/
def pySplitWs (s : String) : List String :=
  ((splitChar ' ' (s.toList.map
      (fun c => if c.isWhitespace then ' ' else c))).filter
    (fun l => l ≠ [])).map String.mk

/-- Python `s.strip()` (ASCII whitespace; the cookie file and HTTP headers
contain no exotic Unicode whitespace). -/
def pyStrip (s : String) : String :=
  String.mk (((s.toList.dropWhile Char.isWhitespace).reverse.dropWhile
    Char.isWhitespace).reverse)

/-- Python `s.lower()`. -/
def pyLower (s : String) : String :=
  String.mk (s.toList.map Char.toLower)

/-- Python `s.startswith(p)`. -/
def pyStartsWith (s p : String) : Bool :=
  p.toList.isPrefixOf s.toList

/-- Python `s.endswith(p)`. -/
def pyEndsWith (s p : String) : Bool :=
  p.toList.isSuffixOf s.toList

/-- Python `c in s` for a single character. -/
def pyContainsChar (s : String) (c : Char) : Bool :=
  s.toList.contains c

/-- Python `sep.join(xs)`. -/
def pyJoin (sep : String) : List String → String
  | [] => ""
  | [x] => x
  | x :: xs => x ++ sep ++ pyJoin sep xs

/-- Value of a non-empty all-digit character list (helper for `int`). -/
def digitsValAux (acc : Nat) : List Char → Option Nat
  | [] => some acc
  | c :: rest =>
      if c.isDigit then digitsValAux (acc * 10 + (c.toNat - 48)) rest else none

/-- Python `int(s)` restricted to an optional sign followed by ASCII digits
(the only shapes the parsed status-line token and port string can take). -/
def pyInt? (s : String) : Option Int :=
  match s.toList with
  | [] => none
  | '-' :: rest =>
      match rest with
      | [] => none
      | _ => (digitsValAux 0 rest).map (fun n => -(n : Int))
  | '+' :: rest =>
      match rest with
      | [] => none
      | _ => (digitsValAux 0 rest).map (fun n => (n : Int))
  | l => (digitsValAux 0 l).map (fun n => (n : Int))

/-- `s.isdigit() and int(s)`: the numeric value of a non-empty all-digit
string. -/
def pyNat? (s : String) : Option Nat :=
  match s.toList with
  | [] => none
  | l => digitsValAux 0 l

/-- Decimal digits of `n` (fuel-based, structurally recursive). -/
def natDigitsAux : Nat → Nat → List Char
  | 0, _ => []
  | fuel + 1, n =>
      if n < 10 then [Char.ofNat (48 + n)]
      else natDigitsAux fuel (n / 10) ++ [Char.ofNat (48 + n % 10)]

/-- Python `str(n)` for a natural number. -/
def natRepr (n : Nat) : String :=
  String.mk (natDigitsAux (n + 1) n)

/-- Python `len(s.encode('utf-8'))`. -/
def pyUtf8Len (s : String) : Nat :=
  s.toList.foldl (fun n c => n + c.utf8Size) 0

/-! ### Python dicts -/

/-- Python `dict` as an insertion-ordered association list. -/
abbrev Dict := List (String × String)

/-- Python dict assignment `d[k] = v`: replaces the value in place when the
key is present, appends `(k, v)` otherwise. -/
def dictInsert {α : Type} (d : List (String × α)) (k : String) (v : α) :
    List (String × α) :=
  if d.any (fun p => p.1 = k) then
    d.map (fun p => if p.1 = k then (k, v) else p)
  else d ++ [(k, v)]

/-- Python `d.get(k)`: the stored value, or `none` when absent. -/
def dictGet {α : Type} (d : List (String × α)) (k : String) : Option α :=
  (d.find? (fun p => p.1 = k)).map (fun p => p.2)

/-- Python `s.partition(c)` restricted to its outer pieces, and also
`s.split(c, 1)`: the text before the first occurrence of `c` and the text
after it (`(s, "")` when `c` does not occur). -/
def splitFirstChar (s : String) (c : Char) : String × String :=
  let cs := s.toList
  match cs.findIdx? (fun x => x = c) with
  | some i => (String.mk (cs.take i), String.mk (cs.drop (i + 1)))
  | none => (s, "")

/-! ### URL decomposition (`http_client.parse_url` and the parts of
`urllib.parse.urlparse` it observes) -/

/-- Characters CPython allows in a URL scheme. -/
def isSchemeChar (c : Char) : Bool :=
  c.isAlphanum || c = '+' || c = '-' || c = '.'

/-- CPython `urlsplit` first strips leading C0-control-or-space characters. -/
def lstripC0 (url : String) : String :=
  String.mk (url.toList.dropWhile (fun c => c.val ≤ 32))

/-- CPython `urlsplit` removes tab, carriage return and newline anywhere. -/
def removeForbiddenBytes (url : String) : String :=
  String.mk (url.toList.filter (fun c => !(c = '\t' || c = '\r' || c = '\n')))

/-- Scheme detection of CPython `urlsplit`: a colon at position `i > 0`
preceded only by scheme characters (first one a letter) splits off a
lower-cased scheme. -/
def splitScheme (url : String) : String × String :=
  let cs := url.toList
  match cs.findIdx? (fun c => c = ':') with
  | some i =>
      if 0 < i && (cs.headD ' ').isAlpha && (cs.take i).all isSchemeChar then
        (pyLower (String.mk (cs.take i)), String.mk (cs.drop (i + 1)))
      else ("", url)
  | none => ("", url)

/-- Netloc detection of CPython `urlsplit`: after a leading `//`, the netloc
runs until the first `/`, `?` or `#`. -/
def splitNetloc (url : String) : String × String :=
  let cs := url.toList
  if pyStartsWith url "//" then
    let rest := cs.drop 2
    let nl := rest.takeWhile (fun c => !(c = '/' || c = '?' || c = '#'))
    (String.mk nl, String.mk (rest.drop nl.length))
  else ("", url)

/-- `url.find(c, j)`: index of the first occurrence of `c` at index `j` or
later. -/
def findCharFrom (cs : List Char) (c : Char) (j : Nat) : Option Nat :=
  match (cs.drop j).findIdx? (fun x => x = c) with
  | some k => some (j + k)
  | none => none

/-- `url.rfind(c)`: index of the last occurrence of `c`. -/
def rfindChar (cs : List Char) (c : Char) : Option Nat :=
  match cs.reverse.findIdx? (fun x => x = c) with
  | some k => some (cs.length - 1 - k)
  | none => none

/-- CPython `_splitparams`: split `;params` off the last path segment. -/
def splitParams (p : String) : String × String :=
  let cs := p.toList
  let iOpt : Option Nat :=
    match rfindChar cs '/' with
    | some j => findCharFrom cs ';' j
    | none => cs.findIdx? (fun x => x = ';')
  match iOpt with
  | some i => (String.mk (cs.take i), String.mk (cs.drop (i + 1)))
  | none => (p, "")

/-- The fields of CPython's `ParseResult` that `parse_url` reads. -/
structure URLParts where
  scheme : String
  netloc : String
  path : String
  params : String
  query : String
  fragment : String
deriving DecidableEq, Repr

/-- Embedding of `urllib.parse.urlparse` (scheme, netloc, path, params,
query, fragment; IPv6-bracket validation is not modelled — no claim involves
bracketed hosts). -/
def urlparse (url : String) : URLParts :=
  let u0 := removeForbiddenBytes (lstripC0 url)
  let sp := splitScheme u0
  let nlp := splitNetloc sp.2
  let fr := splitFirstChar nlp.2 '#'
  let qr := splitFirstChar fr.1 '?'
  let pp := if pyContainsChar qr.1 ';' then splitParams qr.1 else (qr.1, "")
  { scheme := sp.1, netloc := nlp.1, path := pp.1, params := pp.2,
    query := qr.2, fragment := fr.2 }

/-- `netloc.rpartition('@')[2]`: the text after the last `@` (the whole
string when there is no `@`). -/
def afterLastChar (s : String) (c : Char) : String :=
  (pySplitChar s c).getLastD s

/-- CPython's `ParseResult.port`: the digits after the host's colon, `none`
when absent or empty, `ValueError` (`Except.error`) when non-numeric or
above 65535. -/
def urlPort (netloc : String) : Except Unit (Option Nat) :=
  let hostinfo := afterLastChar netloc '@'
  let portStr :=
    if pyContainsChar hostinfo '[' then
      (splitFirstChar ((splitFirstChar ((splitFirstChar hostinfo '[').2) ']').2) ':').2
    else (splitFirstChar hostinfo ':').2
  if portStr = "" then Except.ok none
  else
    match pyNat? portStr with
    | some p => if p ≤ 65535 then Except.ok (some p) else Except.error ()
    | none => Except.error ()

/-- Embedding of `http_client.parse_url`: scheme (default `http`), netloc
with any `:port` suffix removed, port (explicit or scheme default), and
path + optional `?query`. `Except.error` is the `ValueError` an invalid
explicit port raises. -/
def parse_url (url : String) : Except Unit (String × String × Nat × String) :=
  let parsed := urlparse url
  let scheme := if parsed.scheme = "" then "http" else parsed.scheme
  let host0 := parsed.netloc
  let path0 := if parsed.path = "" then "/" else parsed.path
  let path := if parsed.query ≠ "" then path0 ++ "?" ++ parsed.query else path0
  match urlPort parsed.netloc with
  | Except.error e => Except.error e
  | Except.ok portOpt =>
      let port :=
        match portOpt with
        | some p => if p = 0 then (if scheme = "https" then 443 else 80) else p
        | none => if scheme = "https" then 443 else 80
      let host := if pyContainsChar host0 ':' then (splitFirstChar host0 ':').1 else host0
      Except.ok (scheme, host, port, path)

/-! ### Header parsing (`http_client.parse_headers`) -/

/-- One iteration of the header loop: an empty line is skipped, a line with a
colon is split at the first colon into a lower-cased trimmed key and a
trimmed value, and a non-empty line without a colon raises `ValueError`
(the two-element unpack of `line.split(':', 1)` fails), modelled as `none`. -/
def headerLineStep (acc : Option Dict) (line : String) : Option Dict :=
  match acc with
  | none => none
  | some d =>
      if line = "" then some d
      else if pyContainsChar line ':' then
        let kv := splitFirstChar line ':'
        some (dictInsert d (pyLower (pyStrip kv.1)) (pyStrip kv.2))
      else none

/-- Embedding of `http_client.parse_headers`: split the block on CRLF, take
the first line as status line, and fold the remaining lines into a dict. -/
def parse_headers (header_block : String) : Option (String × Dict) :=
  let lines := pySplitCRLF header_block
  let status_line := lines.headD ""
  match (lines.drop 1).foldl headerLineStep (some []) with
  | some d => some (status_line, d)
  | none => none

/-! ### Request building (`http_client._build_request_lines`) -/

/-- Embedding of `http_client._build_request_lines`. `data` is the caller's
data string (`none` for Python `None`); the returned second component is the
request body (the UTF-8 bytes of the data string, empty when no body is
attached). -/
def _build_request_lines (method host path : String) (data : Option String)
    (request_headers cookie_header : String) : List String × String :=
  let base := [method ++ " " ++ path ++ " HTTP/1.1",
               "Host: " ++ host,
               "User-Agent: basic-curl-clone-socket/0.1",
               "Accept: */*",
               "Accept-Encoding: gzip, deflate",
               "Connection: close"]
  let withCookie := if cookie_header ≠ "" then base ++ ["Cookie: " ++ cookie_header] else base
  let withExtra := if request_headers ≠ "" then withCookie ++ [request_headers] else withCookie
  let bodyPair :=
    match data with
    | some d =>
        if method = "POST" ∧ d ≠ "" then
          (withExtra ++ ["Content-Type: application/x-www-form-urlencoded",
                         "Content-Length: " ++ natRepr (pyUtf8Len d)], d)
        else (withExtra, "")
    | none => (withExtra, "")
  (bodyPair.1 ++ ["", ""], bodyPair.2)

/-! ### Content decoding (`http_client._handle_compression`) -/

/-- Embedding of `http_client._handle_compression`. The three `zlib`
decompression call forms — `zlib.decompress(b, 16 + MAX_WBITS)` (gzip),
`zlib.decompress(b)` (zlib-wrapped deflate) and
`zlib.decompress(b, -MAX_WBITS)` (raw deflate) — are function parameters
returning `none` on `zlib.error`; bytes are a type parameter. -/
def _handle_compression {β : Type} (gunzip zlibDecompress zlibRawDecompress : β → Option β)
    (headers : Dict) (body_part : β) : β :=
  if dictGet headers "content-encoding" = some "gzip" then
    match gunzip body_part with
    | some b => b
    | none => body_part
  else if dictGet headers "content-encoding" = some "deflate" then
    match zlibDecompress body_part with
    | some b => b
    | none =>
        match zlibRawDecompress body_part with
        | some b => b
        | none => body_part
  else body_part

/-! ### Redirect resolution (`http_client._handle_redirect`) -/

/-- Embedding of `http_client._handle_redirect` (the `verbose` printing is
omitted). `urljoin` is `urllib.parse.urljoin`. Returns the next URL (`none`
when the location header is absent or empty — Python truthiness), the next
method and the next data. -/
def _handle_redirect (urljoin : String → String → String) (status_code : Int)
    (headers : Dict) (current_url method : String) (data : Option String) :
    Option String × String × Option String :=
  match dictGet headers "location" with
  | some location =>
      if location ≠ "" then
        let new_url := urljoin current_url location
        if status_code = 303 ∨ ((status_code = 301 ∨ status_code = 302) ∧ method = "POST") then
          (some new_url, "GET", none)
        else (some new_url, method, data)
      else (none, method, data)
  | none => (none, method, data)

/-! ### The request loop (`http_client.make_request`) -/

/-- `int(status_line.split()[1])`: second whitespace-separated token of the
status line parsed as an integer; `none` models the `IndexError`/`ValueError`
that the surrounding `except Exception` turns into a failed request. -/
def statusCodeOf (status_line : String) : Option Int :=
  match pySplitWs status_line with
  | _ :: code :: _ => pyInt? code
  | _ => none

/-- The body of `make_request`'s `while redirect_count <= max_redirects`
loop, with `remaining = max_redirects + 1 - redirect_count` as fuel and
`hop` the number of hops already followed. One iteration's transport work —
connect (host/port from `parse_url`), cookie-header lookup, request
serialisation via `_build_request_lines`, send, receive and
`_parse_response` — is the oracle `server`, which sees the hop index and the
request-determining state (method, current URL, data) and returns the parsed
response, or `none` for any hop whose transport or parsing fails (the
`except` arms that return `(None, None, None)`). Cookie-jar writes are a
side effect with no influence on the returned triple and are not threaded. -/
def requestLoop (urljoin : String → String → String)
    (gunzip zlibDecompress zlibRawDecompress : String → Option String)
    (server : Nat → String → String → Option String → Option (String × Dict × String))
    (allow_redirects : Bool) :
    Nat → Nat → String → String → Option String → Option (String × Dict × String)
  | 0, _, _, _, _ => none
  | remaining + 1, hop, current_url, method, data =>
    match server hop method current_url data with
    | none => none
    | some (status_line, headers, raw_body) =>
      let body_part := _handle_compression gunzip zlibDecompress zlibRawDecompress headers raw_body
      match statusCodeOf status_line with
      | none => none
      | some status_code =>
        if (status_code = 301 ∨ status_code = 302 ∨ status_code = 303 ∨
            status_code = 307 ∨ status_code = 308) ∧ allow_redirects = true then
          match _handle_redirect urljoin status_code headers current_url method data with
          | (some new_url, new_method, new_data) =>
              if new_url ≠ "" then
                requestLoop urljoin gunzip zlibDecompress zlibRawDecompress server
                  allow_redirects remaining (hop + 1) new_url new_method new_data
              else some (status_line, headers, body_part)
          | (none, _, _) => some (status_line, headers, body_part)
        else some (status_line, headers, body_part)

/-- Embedding of `http_client.make_request`: run the loop with
`redirect_count = 0`, i.e. fuel `max_redirects + 1`; `none` is the
`(None, None, None)` failure result (in particular the
`Maximum redirects exceeded` exit after the loop). -/
def make_request (urljoin : String → String → String)
    (gunzip zlibDecompress zlibRawDecompress : String → Option String)
    (server : Nat → String → String → Option String → Option (String × Dict × String))
    (method url : String) (data : Option String)
    (allow_redirects : Bool) (max_redirects : Nat) :
    Option (String × Dict × String) :=
  requestLoop urljoin gunzip zlibDecompress zlibRawDecompress server allow_redirects
    (max_redirects + 1) 0 url method data

/-! ### Cookie store (`cookies.py`) -/

/-- The global `cookie_jar`: domain → (name → value), both levels
insertion-ordered Python dicts. -/
abbrev Jar := List (String × List (String × String))

/-- `cookie_jar[domain][name] = value` (creating the inner dict first when
the domain is absent, as `load_cookies_from_file` and `store_cookies` do). -/
def jarStore (jar : Jar) (domain name value : String) : Jar :=
  dictInsert jar domain (dictInsert ((dictGet jar domain).getD []) name value)

/-- The `name=value` extraction of `cookies.store_cookies`: first `;`-part,
trimmed; `none` (the `continue`) when it contains no `=`; otherwise split at
the first `=` with both sides trimmed. -/
def cookieNameValue (header_value : String) : Option (String × String) :=
  let parts := pySplitChar header_value ';'
  let name_value := pyStrip (parts.headD "")
  if pyContainsChar name_value '=' then
    let nv := splitFirstChar name_value '='
    some (pyStrip nv.1, pyStrip nv.2)
  else none

/-- One iteration of the attribute scan of `cookies.store_cookies`: a part
whose trimmed, lower-cased form starts with `domain=` replaces the domain
(value after the first `=`, trimmed, one leading dot stripped). -/
def cookieDomainStep (dom part : String) : String :=
  let p := pyStrip part
  if pyStartsWith (pyLower p) "domain=" then
    let d := pyStrip (splitFirstChar p '=').2
    if pyStartsWith d "." then String.mk (d.toList.drop 1) else d
  else dom

/-- The domain chosen by `cookies.store_cookies` for one header value: the
default domain unless a `Domain=` attribute overrides it. -/
def cookieDomain (header_value default_domain : String) : String :=
  ((pySplitChar header_value ';').drop 1).foldl cookieDomainStep default_domain

/-- The per-header-value body of `cookies.store_cookies`'s loop. -/
def storeOne (default_domain : String) (jar : Jar) (header_value : String) : Jar :=
  match cookieNameValue header_value with
  | none => jar
  | some nv => jarStore jar (cookieDomain header_value default_domain) nv.1 nv.2

/-- Embedding of `cookies.store_cookies` (the `save_cookies_to_file`
write-through touches only the file, not the jar). A single non-list header
value is the singleton list. -/
def store_cookies (set_cookie_headers : List String) (default_domain : String)
    (jar : Jar) : Jar :=
  set_cookie_headers.foldl (storeOne default_domain) jar

/-- Python `cookies_to_send.update(names)`. -/
def dictUpdate (acc names : List (String × String)) : List (String × String) :=
  names.foldl (fun a nv => dictInsert a nv.1 nv.2) acc

/-- Embedding of `cookies.get_cookies_for_url`: merge the name→value dicts of
every jar domain that is a suffix of `host`, then join as
`name=value; name=value; ...` (`path` is accepted but unused, as in the
source). -/
def get_cookies_for_url (host path : String) (jar : Jar) : String :=
  let cookies_to_send := jar.foldl
    (fun acc dn => if pyEndsWith host dn.1 then dictUpdate acc dn.2 else acc) []
  pyJoin "; " (cookies_to_send.map (fun nv => nv.1 ++ "=" ++ nv.2))

/-- Python `line.split('\t', 2)`: split at the first two tabs only (at most
three pieces, later tabs stay inside the last piece). -/
def splitTab2 (line : String) : List String :=
  let ps := pySplitChar line '\t'
  if ps.length ≤ 3 then ps
  else ps.take 2 ++ [pyJoin "\t" (ps.drop 2)]

/-- The per-line body of `cookies.load_cookies_from_file`: strip, skip blank
and `#`-comment lines, unpack `line.split('\t', 2)` into exactly three
fields (fewer raises `ValueError`, caught and skipped with a warning), store
the triple. -/
def processLine (jar : Jar) (raw : String) : Jar :=
  let line := pyStrip raw
  if line = "" ∨ pyStartsWith line "#" then jar
  else
    match splitTab2 line with
    | [domain, name, value] => jarStore jar domain name value
    | _ => jar

/-- Embedding of `cookies.load_cookies_from_file` on the file's lines (a
missing file is the empty line list, giving the empty jar). -/
def load_cookies_from_file (contents : List String) : Jar :=
  contents.foldl processLine []

/-- A hop response that `make_request` must follow (when redirects are
allowed): the hop succeeded, its status code parses to one of
301/302/303/307/308 and it carries a non-empty location header. -/
def FollowableRedirect (o : Option (String × Dict × String)) : Prop :=
  ∃ sl hd bd, o = some (sl, hd, bd) ∧
    (∃ c, statusCodeOf sl = some c ∧
      (c = 301 ∨ c = 302 ∨ c = 303 ∨ c = 307 ∨ c = 308)) ∧
    ∃ loc, dictGet hd "location" = some loc ∧ loc ≠ ""

/-! ## Claims -/

/-- C1: For every followed redirect hop with a (non-empty, hence followed)
location header: if the status is 303, or the status is 301/302 and the
current method is POST, the next hop uses method GET with no body; for every
other combination (in particular 307/308, and 301/302 with a non-POST
method) the next hop carries the current method and body unchanged. -/
theorem C1_redirect_downgrade (urljoin : String → String → String) (code : Int)
    (headers : Dict) (current_url method : String) (data : Option String)
    (loc : String) (hloc : dictGet headers "location" = some loc) (hne : loc ≠ "") :
    (_handle_redirect urljoin code headers current_url method data).1 =
        some (urljoin current_url loc) ∧
    ((code = 303 ∨ ((code = 301 ∨ code = 302) ∧ method = "POST")) →
        (_handle_redirect urljoin code headers current_url method data).2.1 = "GET" ∧
        (_handle_redirect urljoin code headers current_url method data).2.2 = none) ∧
    (¬(code = 303 ∨ ((code = 301 ∨ code = 302) ∧ method = "POST")) →
        (_handle_redirect urljoin code headers current_url method data).2.1 = method ∧
        (_handle_redirect urljoin code headers current_url method data).2.2 = data) := by
  by_cases hc : code = 303 ∨ ((code = 301 ∨ code = 302) ∧ method = "POST")
  · simp [_handle_redirect, hloc, hne, hc]
  · simp [_handle_redirect, hloc, hne, hc]

/-- Witness for C1 at a concrete 303 POST hop. -/
theorem C1_redirect_downgrade_witness :
    (_handle_redirect (fun a b => a ++ b) 303 [("location", "/next")] "http://e" "POST"
        (some "a=1")).2.1 = "GET" ∧
    (_handle_redirect (fun a b => a ++ b) 303 [("location", "/next")] "http://e" "POST"
        (some "a=1")).2.2 = none :=
  (C1_redirect_downgrade (fun a b => a ++ b) 303 [("location", "/next")] "http://e" "POST"
    (some "a=1") "/next" (by decide) (by decide)).2.1 (Or.inl rfl)

/-- C3: the claim that multiple `Set-Cookie` lines all survive header parsing
is contradicted by the code: `parse_headers` stores headers in a dict keyed
by the lower-cased name, so a later `Set-Cookie` line overwrites an earlier
one and only the last value (`b=2` here) reaches the cookie-storing step. -/
theorem C3_set_cookie_collapsed :
    parse_headers "HTTP/1.1 200 OK\r\nSet-Cookie: a=1\r\nSet-Cookie: b=2" =
      some ("HTTP/1.1 200 OK", [("set-cookie", "b=2")]) := by decide

/-- C4: the claim that colonless header lines are skipped defensively is
contradicted by the code: unpacking `line.split(':', 1)` raises `ValueError`
on a line with no colon, so `parse_headers` fails (and `make_request`'s
catch-all turns the whole request into a failure) instead of skipping. -/
theorem C4_colonless_line_raises :
    parse_headers "HTTP/1.1 200 OK\r\nbroken line\r\nContent-Type: text/plain" = none := by
  decide

/-- C6: gzip decompression failure returns the original bytes; deflate tries
zlib-wrapped decompression first, then raw DEFLATE, then falls back to the
original bytes; any other or absent content-encoding passes the body through
unchanged. Decompression never makes the request fail. -/
theorem C6_compression_fallback {β : Type} (g z zr : β → Option β)
    (headers : Dict) (body : β) :
    (dictGet headers "content-encoding" = some "gzip" → g body = none →
        _handle_compression g z zr headers body = body) ∧
    (dictGet headers "content-encoding" = some "deflate" →
        ((∀ b, z body = some b → _handle_compression g z zr headers body = b) ∧
         (z body = none → ∀ b, zr body = some b →
            _handle_compression g z zr headers body = b) ∧
         (z body = none → zr body = none →
            _handle_compression g z zr headers body = body))) ∧
    (dictGet headers "content-encoding" ≠ some "gzip" →
     dictGet headers "content-encoding" ≠ some "deflate" →
        _handle_compression g z zr headers body = body) := by
  refine ⟨?_, ?_, ?_⟩
  · intro hce hg
    unfold _handle_compression
    rw [if_pos hce, hg]
  · intro hce
    have hgz : dictGet headers "content-encoding" ≠ some "gzip" := by simp [hce]
    refine ⟨?_, ?_, ?_⟩
    · intro b hb
      unfold _handle_compression
      rw [if_neg hgz, if_pos hce, hb]
    · intro hz b hb
      unfold _handle_compression
      rw [if_neg hgz, if_pos hce, hz, hb]
    · intro hz hzr
      unfold _handle_compression
      rw [if_neg hgz, if_pos hce, hz, hzr]
  · intro h1 h2
    unfold _handle_compression
    rw [if_neg h1, if_neg h2]

/-- Witness for C6: corrupted gzip body comes back unchanged. -/
theorem C6_compression_fallback_witness :
    _handle_compression (fun _ => none) (fun _ => none) (fun _ => none)
      [("content-encoding", "gzip")] (5 : Nat) = 5 :=
  (C6_compression_fallback (fun _ => none) (fun _ => none) (fun _ => none)
    [("content-encoding", "gzip")] 5).1 (by decide) rfl

/-- C9: the encoding dispatch is an exact, case-sensitive comparison of the
stored (trimmed) content-encoding value with `gzip`/`deflate`; any other
value passes the body through with no decompression attempted, whatever the
decompressors would do. -/
theorem C9_exact_encoding_dispatch {β : Type} (g z zr : β → Option β)
    (headers : Dict) (body : β)
    (hg : dictGet headers "content-encoding" ≠ some "gzip")
    (hd : dictGet headers "content-encoding" ≠ some "deflate") :
    _handle_compression g z zr headers body = body := by
  unfold _handle_compression
  rw [if_neg hg, if_neg hd]

/-- Witness for C9 at `GZIP` and at the list value `gzip, deflate`, with
decompressors that would succeed if they were called. -/
theorem C9_exact_encoding_dispatch_witness :
    _handle_compression (fun _ => some 1) (fun _ => some 2) (fun _ => some 3)
      [("content-encoding", "GZIP")] (7 : Nat) = 7 ∧
    _handle_compression (fun _ => some 1) (fun _ => some 2) (fun _ => some 3)
      [("content-encoding", "gzip, deflate")] (7 : Nat) = 7 :=
  ⟨C9_exact_encoding_dispatch _ _ _ _ _ (by decide) (by decide),
   C9_exact_encoding_dispatch _ _ _ _ _ (by decide) (by decide)⟩

/-- Appending the empty string on the right is the identity. -/
theorem strAppendEmpty (s : String) : s ++ "" = s := by
  cases s with
  | mk data =>
      show String.mk (data ++ []) = String.mk data
      rw [List.append_nil]

/-- C10: the request builder attaches a non-empty body and the
Content-Type/Content-Length pair exactly when the method is `POST` and the
data string is non-None and non-empty; a POST with empty-string data builds
the same request as a POST with no data, with no body and neither header. -/
theorem C10_post_body_condition (method host path : String) (data : Option String)
    (request_headers cookie_header : String) :
    (_build_request_lines method host path (some "") request_headers cookie_header =
        _build_request_lines method host path none request_headers cookie_header) ∧
    ((method = "POST" ∧ ∃ d, data = some d ∧ d ≠ "") →
        (_build_request_lines method host path data request_headers cookie_header).2 ≠ "" ∧
        "Content-Type: application/x-www-form-urlencoded" ∈
          (_build_request_lines method host path data request_headers cookie_header).1 ∧
        ("Content-Length: " ++ natRepr (pyUtf8Len
            (_build_request_lines method host path data request_headers cookie_header).2)) ∈
          (_build_request_lines method host path data request_headers cookie_header).1) ∧
    (¬(method = "POST" ∧ ∃ d, data = some d ∧ d ≠ "") →
        (_build_request_lines method host path data request_headers cookie_header).2 = "" ∧
        (_build_request_lines method host path data request_headers cookie_header).1 =
          (_build_request_lines method host path none request_headers cookie_header).1) := by
  refine ⟨?_, ?_, ?_⟩
  · by_cases hm : method = "POST" <;> simp [_build_request_lines, hm]
  · rintro ⟨hm, d, hd, hdne⟩
    subst hd
    simp [_build_request_lines, hm, hdne]
  · intro hnc
    cases data with
    | none => exact ⟨rfl, rfl⟩
    | some d =>
        by_cases hm : method = "POST"
        · have hd : d = "" := by
            by_contra hne2
            exact hnc ⟨hm, d, rfl, hne2⟩
          subst hd
          simp [_build_request_lines, hm]
        · simp [_build_request_lines, hm]

/-- Witness for C10: a POST with data `a=1` carries the Content-Type
header. -/
theorem C10_post_body_condition_witness :
    "Content-Type: application/x-www-form-urlencoded" ∈
      (_build_request_lines "POST" "h" "/" (some "a=1") "" "").1 :=
  ((C10_post_body_condition "POST" "h" "/" (some "a=1") "" "").2.1
    ⟨rfl, "a=1", rfl, by decide⟩).2.1

/-- C5 is contradicted by the code: on a URL with no parseable host
component, `parse_url` does not fail with any error — it succeeds and
returns a `ParsedURL` with an empty host. -/
theorem C5_counterexample_url_without_host :
    parse_url "example.com" = Except.ok ("http", "", 80, "example.com") := rfl

/-- C5 (amended): for every URL string in which `urlparse` finds no netloc
(no parseable host component), `parse_url` succeeds — returning some scheme,
the empty host, some port and some path — rather than failing. -/
theorem C5_no_host_total (url : String) (h : (urlparse url).netloc = "") :
    ∃ s p q, parse_url url = Except.ok (s, "", p, q) := by
  refine ⟨if (urlparse url).scheme = "" then "http" else (urlparse url).scheme,
    if (if (urlparse url).scheme = "" then "http" else (urlparse url).scheme) = "https"
      then 443 else 80,
    if (urlparse url).query ≠ "" then
      (if (urlparse url).path = "" then "/" else (urlparse url).path) ++ "?" ++
        (urlparse url).query
    else (if (urlparse url).path = "" then "/" else (urlparse url).path), ?_⟩
  simp only [parse_url, h]
  rfl

/-- Witness for C5 (amended) at `example.com`. -/
theorem C5_no_host_total_witness :
    (urlparse "example.com").netloc = "" ∧
    ∃ s p q, parse_url "example.com" = Except.ok (s, "", p, q) :=
  ⟨rfl, C5_no_host_total "example.com" rfl⟩

/-- C7: storing a Set-Cookie header value (into a fresh jar) under the
domain the store step chooses for it — the `Domain=` attribute when present,
the default domain otherwise — and then asking for the cookies of any host
that ends with that domain yields a string containing the cookie's
`name=value` pair. -/
theorem C7_cookie_roundtrip (h D name value host path : String)
    (hnv : cookieNameValue h = some (name, value))
    (hend : pyEndsWith host (cookieDomain h D) = true) :
    ∃ pre post, get_cookies_for_url host path (store_cookies [h] D []) =
      pre ++ (name ++ "=" ++ value) ++ post := by
  refine ⟨"", "", ?_⟩
  have hstore : store_cookies [h] D [] = [(cookieDomain h D, [(name, value)])] := by
    show storeOne D [] h = _
    unfold storeOne
    rw [hnv]
    rfl
  rw [hstore]
  unfold get_cookies_for_url
  simp only [List.foldl]
  rw [if_pos hend]
  simp only [strAppendEmpty]
  rfl

/-- Witness for C7: `sid=abc; Domain=.le.com` stored with default domain
`d.le.com` is served to `www.le.com`. -/
theorem C7_cookie_roundtrip_witness :
    ∃ pre post,
      get_cookies_for_url "www.le.com" "/"
          (store_cookies ["sid=abc; Domain=.le.com"] "d.le.com" []) =
        pre ++ ("sid" ++ "=" ++ "abc") ++ post :=
  C7_cookie_roundtrip "sid=abc; Domain=.le.com" "d.le.com" "sid" "abc" "www.le.com" "/"
    (by decide) (by decide)

/-- C8 is contradicted by the code for lines with more than 3 tab-separated
fields: `line.split('\t', 2)` caps the split at three pieces, so a four-field
line is accepted (the third and fourth fields joined by a tab become the
value) instead of being skipped. -/
theorem C8_counterexample_four_fields :
    (pySplitChar "d\tn\tv\tw" '\t').length = 4 ∧
    load_cookies_from_file ["d\tn\tv\tw"] = [("d", [("n", "v\tw")])] := by decide

/-- C8 (amended): a non-empty, non-comment line with fewer than 3
tab-separated fields is skipped (no jar entry, no failure); lines with 3 or
more fields are stored, tabs beyond the second folded into the value. -/
theorem C8_short_lines_skipped (raw : String) (jar : Jar)
    (h1 : pyStrip raw ≠ "") (h2 : pyStartsWith (pyStrip raw) "#" = false)
    (h3 : (pySplitChar (pyStrip raw) '\t').length < 3) :
    processLine jar raw = jar := by
  have hcond : ¬(pyStrip raw = "" ∨ pyStartsWith (pyStrip raw) "#" = true) := by
    rintro (hc | hc)
    · exact h1 hc
    · rw [h2] at hc
      exact Bool.false_ne_true hc
  unfold processLine
  rw [if_neg hcond]
  unfold splitTab2
  have hle : (pySplitChar (pyStrip raw) '\t').length ≤ 3 := by omega
  rw [if_pos hle]
  rcases hsp : pySplitChar (pyStrip raw) '\t' with _ | ⟨a, _ | ⟨b, _ | ⟨c, rest⟩⟩⟩
  · rfl
  · rfl
  · rfl
  · rw [hsp] at h3
    simp only [List.length] at h3
    omega

/-- Witness for C8 (amended): a two-field line adds nothing to the jar. -/
theorem C8_short_lines_skipped_witness :
    processLine [("x", [("y", "z")])] "a\tb" = [("x", [("y", "z")])] :=
  C8_short_lines_skipped "a\tb" [("x", [("y", "z")])] (by decide) (by decide) (by decide)

/-- The request loop only consults the server oracle at hop indices below
`hop + remaining`: two oracles that agree there give equal results. -/
theorem requestLoop_agree (uj : String → String → String)
    (g z zr : String → Option String)
    (server server2 : Nat → String → String → Option String → Option (String × Dict × String))
    (allow : Bool) :
    ∀ (remaining hop : Nat) (url method : String) (data : Option String),
      (∀ k m u d, hop ≤ k → k < hop + remaining → server k m u d = server2 k m u d) →
      requestLoop uj g z zr server allow remaining hop url method data =
        requestLoop uj g z zr server2 allow remaining hop url method data := by
  intro remaining
  induction remaining with
  | zero => intro hop url method data hagree; rfl
  | succ r ih =>
      intro hop url method data hagree
      have h0 : server hop method url data = server2 hop method url data :=
        hagree hop method url data (Nat.le_refl hop) (by omega)
      simp only [requestLoop]
      rw [h0]
      cases hsv : server2 hop method url data with
      | none => rfl
      | some resp =>
          obtain ⟨sl, hd, bd⟩ := resp
          dsimp only
          cases hsc : statusCodeOf sl with
          | none => rfl
          | some c =>
              dsimp only
              by_cases hcode : (c = 301 ∨ c = 302 ∨ c = 303 ∨ c = 307 ∨ c = 308) ∧
                  allow = true
              · rw [if_pos hcode, if_pos hcode]
                rcases hhr : _handle_redirect uj c hd url method data with ⟨nu, nm, nd⟩
                cases nu with
                | none => rfl
                | some u =>
                    dsimp only
                    by_cases hu : u = ""
                    · simp [hu]
                    · rw [if_pos hu, if_pos hu]
                      exact ih (hop + 1) u nm nd
                        (fun k m x d h1 h2 => hagree k m x d (by omega) (by omega))
              · rw [if_neg hcode, if_neg hcode]

/-- When every hop in range is a followable redirect (and `urljoin` never
returns an empty URL), the loop burns through all its fuel and fails. -/
theorem requestLoop_followable_none (uj : String → String → String)
    (g z zr : String → Option String)
    (server : Nat → String → String → Option String → Option (String × Dict × String))
    (hne : ∀ a b, uj a b ≠ "") :
    ∀ (remaining hop : Nat) (url method : String) (data : Option String),
      (∀ k m u d, hop ≤ k → k < hop + remaining → FollowableRedirect (server k m u d)) →
      requestLoop uj g z zr server true remaining hop url method data = none := by
  intro remaining
  induction remaining with
  | zero => intro hop url method data hf; rfl
  | succ r ih =>
      intro hop url method data hf
      obtain ⟨sl, hd, bd, hsv, ⟨c, hsc, hcode⟩, loc, hloc, hlocne⟩ :=
        hf hop method url data (Nat.le_refl hop) (by omega)
      simp only [requestLoop]
      rw [hsv]
      dsimp only
      rw [hsc]
      dsimp only
      rw [if_pos (show (c = 301 ∨ c = 302 ∨ c = 303 ∨ c = 307 ∨ c = 308) ∧ True
        from ⟨hcode, trivial⟩)]
      have hhr : ∃ nm nd, _handle_redirect uj c hd url method data =
          (some (uj url loc), nm, nd) := by
        unfold _handle_redirect
        rw [hloc]
        dsimp only
        rw [if_pos hlocne]
        by_cases hdg : c = 303 ∨ ((c = 301 ∨ c = 302) ∧ method = "POST")
        · exact ⟨"GET", none, if_pos hdg⟩
        · exact ⟨method, data, if_neg hdg⟩
      obtain ⟨nm, nd, hhr⟩ := hhr
      rw [hhr]
      dsimp only
      rw [if_pos (hne url loc)]
      exact ih (hop + 1) (uj url loc) nm nd
        (fun k m x d h1 h2 => hf k m x d (by omega) (by omega))

/-- C2: `make_request` with max-redirects `n` consults the per-hop transport
only at hop indices `0..n` (at most `n + 1` hops are attempted — the result
is unchanged by any modification of the server beyond hop `n`), and if every
one of those `n + 1` hops yields a followable redirect, the call fails with
the absent result (the too-many-redirects exit) instead of attempting a
further hop. -/
theorem C2_redirect_ceiling (uj : String → String → String)
    (g z zr : String → Option String)
    (server server2 : Nat → String → String → Option String → Option (String × Dict × String))
    (method url : String) (data : Option String) (allow : Bool) (n : Nat) :
    ((∀ k m u d, k ≤ n → server k m u d = server2 k m u d) →
        make_request uj g z zr server method url data allow n =
          make_request uj g z zr server2 method url data allow n) ∧
    ((∀ a b, uj a b ≠ "") →
     (∀ k m u d, k ≤ n → FollowableRedirect (server k m u d)) →
        make_request uj g z zr server method url data true n = none) := by
  constructor
  · intro hagree
    exact requestLoop_agree uj g z zr server server2 allow (n + 1) 0 url method data
      (fun k m u d h1 h2 => hagree k m u d (by omega))
  · intro hne hf
    exact requestLoop_followable_none uj g z zr server hne (n + 1) 0 url method data
      (fun k m u d h1 h2 => hf k m u d (by omega))

/-- Witness for C2: a server that always 301-redirects exhausts
max-redirects 2 and the call returns the absent result. -/
theorem C2_redirect_ceiling_witness :
    make_request (fun _ _ => "http://next.example/") (fun _ => none) (fun _ => none)
      (fun _ => none)
      (fun _ _ _ _ => some ("HTTP/1.1 301 Moved Permanently", [("location", "/n")], ""))
      "GET" "http://start.example/" none true 2 = none :=
  (C2_redirect_ceiling (fun _ _ => "http://next.example/") (fun _ => none) (fun _ => none)
      (fun _ => none)
      (fun _ _ _ _ => some ("HTTP/1.1 301 Moved Permanently", [("location", "/n")], ""))
      (fun _ _ _ _ => some ("HTTP/1.1 301 Moved Permanently", [("location", "/n")], ""))
      "GET" "http://start.example/" none true 2).2
    (fun a b => by decide)
    (fun k m u d hk =>
      ⟨"HTTP/1.1 301 Moved Permanently", [("location", "/n")], "", rfl,
        ⟨301, by decide, Or.inl rfl⟩, "/n", by decide, by decide⟩)

end CurlClone
